import Mathlib

/-!
Verification development for the urbs scenario-run orchestration scripts
(`runme_dummy.py`, `Village.py`, `Kpori.py`, `runme_WT_EWF.py`).

The data model is a shallow embedding of the pandas structures the scripts
manipulate: a `DataFrame` is a list of rows keyed by a (location, entity)
pair, each row an association list from column name to cell value; a
`Dataset` is the dict returned by `urbs.read_excel`, mapping a relation
name (such as "storage" or "process") to a `DataFrame`.  Fallible Python
operations (dict lookup, pipeline steps that may raise) are embedded in
`Except`; an uncaught Python exception is an `Except.error` that
propagates outward.
-/

namespace Urbs

/-- A cell value: a number, or a missing value (pandas NaN, as produced when a
row is created by setting-with-enlargement and other columns are left unset). -/
inductive Val where
  | num : Int → Val
  | nan : Val
deriving DecidableEq, Repr

/-- A composite row key: (location, entity-name), e.g. ("Village", "Water Pump"). -/
abbrev Key := String × String

/-- A tabular relation: rows keyed by (location, entity), each row an
association list from column name to value.  Embeds the pandas DataFrames
held in the dataset dict. -/
structure DataFrame where
  rows : List (Key × List (String × Val))
deriving DecidableEq, Repr

/-- The key list of a relation. -/
def DataFrame.keys (df : DataFrame) : List Key :=
  df.rows.map Prod.fst

/-- Set (or add) one column of a row's association list, first occurrence wins. -/
def cellSet (cells : List (String × Val)) (c : String) (v : Val) :
    List (String × Val) :=
  match cells with
  | [] => [(c, v)]
  | p :: rest => if p.1 = c then (c, v) :: rest else p :: cellSet rest c v

/-- Embeds the pandas label assignment `df.loc[key, col] = v` used by the
scenario functions.  Per the documented pandas semantics ("setting with
enlargement"), assignment through `.loc` at a key already in the index
overwrites that row's column; assignment at a key absent from the index
does NOT raise, but appends a new row for that key whose only set column is
the assigned one (all other columns NaN, here: absent). -/
def DataFrame.locSet (df : DataFrame) (k : Key) (c : String) (v : Val) :
    DataFrame :=
  if df.rows.any (fun r => r.1 = k) then
    ⟨df.rows.map (fun r => if r.1 = k then (r.1, cellSet r.2 c v) else r)⟩
  else
    ⟨df.rows ++ [(k, [(c, v)])]⟩

/-- Errors of the embedded Python fragments: an uncaught exception. -/
inductive PyError where
  | keyError : String → PyError
  | scenarioError : PyError
  | validationError : PyError
  | dataLoadError : PyError
  | modelBuildError : PyError
deriving DecidableEq, Repr

/-- The dataset dict returned by `urbs.read_excel`: relation name to relation. -/
abbrev Dataset := List (String × DataFrame)

/-- Embeds the Python dict read `data[name]`: the first binding for `name`,
or a raised KeyError when the relation is absent. -/
def getRel (d : Dataset) (n : String) : Except PyError DataFrame :=
  match d with
  | [] => .error (.keyError n)
  | p :: rest => if p.1 = n then .ok p.2 else getRel rest n

/-- Embeds the Python dict write `data[name] = df` (which, in the scripts,
happens implicitly: the scenario functions mutate the DataFrame obtained
from `data[name]` in place, so the dict ends up holding the edited frame).
Replaces the first binding for `name`, or appends one if absent. -/
def setRel (d : Dataset) (n : String) (df : DataFrame) : Dataset :=
  match d with
  | [] => [(n, df)]
  | p :: rest => if p.1 = n then (n, df) :: rest else p :: setRel rest n df

/-- The shape of a dataset: each relation's name paired with its key list. -/
def keysOf (d : Dataset) : List (String × List Key) :=
  d.map (fun p => (p.1, p.2.keys))

/-- A scenario: a name (`scenario.__name__` in the scripts) bound to a
dataset transform; a transform that raises is an `Except.error`. -/
structure Scenario where
  name : String
  fn : Dataset → Except PyError Dataset

namespace Dummy

/-- `scenario_base` of `runme_dummy.py`: every edit is commented out, the
body is a bare `return data`. -/
def scenario_base (data : Dataset) : Except PyError Dataset :=
  .ok data

end Dummy

namespace Village

/-- `scenario_base` of `Village.py`: reads `data['storage']` and
`data['process']` (a KeyError if absent) but performs no edit, then
returns the dataset. -/
def scenario_base (data : Dataset) : Except PyError Dataset :=
  match getRel data "storage" with
  | .error e => .error e
  | .ok _sto =>
    match getRel data "process" with
    | .error e => .error e
    | .ok _pro => .ok data

end Village

namespace Kpori

/-- `scenario_base` of `Kpori.py`: reads `data['storage']` and
`data['process']`, then performs the single uncommented edit
`pro.loc[('Village', 'WaterBuy to Domestic Water'), 'inv-cost'] = 0`. -/
def scenario_base (data : Dataset) : Except PyError Dataset :=
  match getRel data "storage" with
  | .error e => .error e
  | .ok _sto =>
    match getRel data "process" with
    | .error e => .error e
    | .ok pro =>
      let pro := pro.locSet ("Village", "WaterBuy to Domestic Water")
        "inv-cost" (Val.num 0)
      .ok (setRel data "process" pro)

end Kpori

namespace WTEWF

/-- `scenario_base` of `runme_WT_EWF.py`: edits two storage rows
(`cap-up-c` of 'Biogas Storage' and of 'Biogas Equivalent Storage' at
'StRupertMayer') and two process rows (`cap-up` of 'Biogas Generator' and
of 'Biogas Digester'), each set to 0, then returns the dataset. -/
def scenario_base (data : Dataset) : Except PyError Dataset :=
  match getRel data "storage" with
  | .error e => .error e
  | .ok sto =>
    let sto := sto.locSet ("StRupertMayer", "Biogas Storage") "cap-up-c" (Val.num 0)
    let sto := sto.locSet ("StRupertMayer", "Biogas Equivalent Storage") "cap-up-c" (Val.num 0)
    let data := setRel data "storage" sto
    match getRel data "process" with
    | .error e => .error e
    | .ok pro =>
      let pro := pro.locSet ("StRupertMayer", "Biogas Generator") "cap-up" (Val.num 0)
      let pro := pro.locSet ("StRupertMayer", "Biogas Digester") "cap-up" (Val.num 0)
      .ok (setRel data "process" pro)

end WTEWF

/-! ### Solver configuration (`setup_solver`, identical in all four scripts) -/

/-- A pyomo solver object as the scripts use it: the engine name and
`solver_io` passed to `SolverFactory`, plus the option strings accumulated
by `set_options`. -/
structure Optim where
  name : String
  solver_io : String
  options : List String
deriving DecidableEq, Repr

/-- Embeds `SolverFactory(engine, solver_io=io)`: a fresh solver object with
no options set. -/
def SolverFactory (engine io : String) : Optim :=
  ⟨engine, io, []⟩

/-- Embeds `optim.set_options(s)`: appends one option string. -/
def Optim.set_options (o : Optim) (s : String) : Optim :=
  { o with options := o.options ++ [s] }

/-- `setup_solver(optim, logfile)`, identical in all four scripts: for engine
'gurobi' sets `logfile=<logfile>`, for 'glpk' sets `log=<logfile>`, otherwise
sets nothing and prints a warning.  The printed warning is returned as the
second component; the function never raises. -/
def setup_solver (optim : Optim) (logfile : String) : Optim × List String :=
  if optim.name = "gurobi" then
    (optim.set_options ("logfile=" ++ logfile), [])
  else if optim.name = "glpk" then
    (optim.set_options ("log=" ++ logfile), [])
  else
    (optim, ["Warning from setup_solver: no options set for solver " ++ optim.name])

/-! ### Result directory (`prepare_result_directory`, identical in all four scripts) -/

/-- A `datetime.now()` value, to second resolution (the finest component the
scripts could observe; `strftime('%Y%m%dT%H%M')` discards it). -/
structure PyDateTime where
  year : Nat
  month : Nat
  day : Nat
  hour : Nat
  minute : Nat
  second : Nat
deriving DecidableEq, Repr

/-- Zero-pad a numeral to two digits, as strftime's %m/%d/%H/%M do. -/
def pad2 (n : Nat) : String :=
  if n < 10 then "0" ++ Nat.repr n else Nat.repr n

/-- Zero-pad a numeral to four digits, as strftime's %Y does. -/
def pad4 (n : Nat) : String :=
  if n < 10 then "000" ++ Nat.repr n
  else if n < 100 then "00" ++ Nat.repr n
  else if n < 1000 then "0" ++ Nat.repr n
  else Nat.repr n

/-- `datetime.now().strftime('%Y%m%dT%H%M')`: minute resolution, the seconds
component is discarded. -/
def strftime_YmdTHM (t : PyDateTime) : String :=
  pad4 t.year ++ pad2 t.month ++ pad2 t.day ++ "T" ++ pad2 t.hour ++ pad2 t.minute

/-- The filesystem state the scripts touch: the set of existing directories. -/
structure FS where
  dirs : List String
deriving DecidableEq, Repr

/-- `prepare_result_directory(result_name)`, identical in all four scripts:
builds `result/<name>-<timestamp>`; if that path does not exist, creates it
with `os.makedirs` (which also creates the missing parent `result`);
returns the path.  The wall clock `datetime.now()` is the explicit `t`
argument; the filesystem is threaded as explicit state. -/
def prepare_result_directory (fs : FS) (t : PyDateTime) (result_name : String) :
    FS × String :=
  let now := strftime_YmdTHM t
  let result_dir := "result/" ++ result_name ++ "-" ++ now
  if fs.dirs.contains result_dir then
    (fs, result_dir)
  else
    (⟨result_dir :: List.insert "result" fs.dirs⟩, result_dir)

/-! ### The run pipeline (`run_scenario`) -/

/-- The model object returned by the external `urbs.create_model`. -/
structure Model where
  data : Dataset
  timesteps : List Nat
  created : String
deriving DecidableEq, Repr

/-- The termination status carried by the results object the solver returns. -/
inductive SolveStatus where
  | optimal
  | infeasible
  | unbounded
  | solverError
deriving DecidableEq, Repr

/-- The external collaborators of the pipeline (`urbs.read_excel`,
`urbs.validate_input`, `urbs.create_model` in its two call shapes, and the
pyomo `optim.solve`), each as an oracle: fallible ones in `Except`, while
`solve` returns a results object whose status is inspected by nobody. -/
structure Env where
  read_excel : String → Except PyError Dataset
  validate_input : Dataset → Except PyError Unit
  create_model : Dataset → List Nat → Except PyError Model
  create_model_dt : Dataset → Nat → List Nat → Except PyError Model
  solve : Optim → Model → SolveStatus

/-- One observable step of a scenario run, in execution order. -/
inductive Event where
  | readExcel : String → Event
  | scenarioApplied : String → Event
  | validated : Event
  | modelCreated : Event
  | solverCreated : String → String → Event
  | solverConfigured : String → Event
  | solved : SolveStatus → Event
  | reported : String → Event
  | plotted : String → Event
deriving DecidableEq, Repr

/-- `run_scenario` as written identically in `runme_dummy.py`, `Kpori.py`
and `runme_WT_EWF.py`: read the input, apply the scenario transform, build
the model (no validation step exists in these three scripts), construct a
'gurobi' solver with python solver_io, configure its log file, solve, then
unconditionally report and plot.  Returns the trace of executed steps and
either the (model, solve status) or the uncaught exception. -/
def run_scenario (env : Env) (input_file : String) (timesteps : List Nat)
    (scenario : Scenario) (result_dir : String)
    (_plot_tuples : List Key) (_plot_periods : List (String × Nat × Nat))
    (_report_tuples : List Key) :
    List Event × Except PyError (Model × SolveStatus) :=
  let sce := scenario.name
  match env.read_excel input_file with
  | .error e => ([.readExcel input_file], .error e)
  | .ok data =>
    match scenario.fn data with
    | .error e => ([.readExcel input_file, .scenarioApplied sce], .error e)
    | .ok data =>
      match env.create_model data timesteps with
      | .error e =>
        ([.readExcel input_file, .scenarioApplied sce], .error e)
      | .ok prob =>
        let log_filename := result_dir ++ "/" ++ sce ++ ".log"
        let optim := SolverFactory "gurobi" "python"
        let optim := (setup_solver optim log_filename).1
        let status := env.solve optim prob
        ([.readExcel input_file, .scenarioApplied sce, .modelCreated,
          .solverCreated "gurobi" "python", .solverConfigured log_filename,
          .solved status,
          .reported (result_dir ++ "/" ++ sce ++ ".xlsx"),
          .plotted (result_dir ++ "/" ++ sce)],
         .ok (prob, status))

namespace Village

/-- `run_scenario` of `Village.py`: like the common variant, but with a
`dt` parameter forwarded to `urbs.create_model` and with a call to
`urbs.validate_input(data)` between the scenario transform and model
construction; a raised ValidationError propagates, aborting the remaining
steps of that scenario. -/
def run_scenario (env : Env) (input_file : String) (timesteps : List Nat)
    (scenario : Scenario) (result_dir : String) (dt : Nat)
    (_plot_tuples : List Key) (_plot_periods : List (String × Nat × Nat))
    (_report_tuples : List Key) :
    List Event × Except PyError (Model × SolveStatus) :=
  let sce := scenario.name
  match env.read_excel input_file with
  | .error e => ([.readExcel input_file], .error e)
  | .ok data =>
    match scenario.fn data with
    | .error e => ([.readExcel input_file, .scenarioApplied sce], .error e)
    | .ok data =>
      match env.validate_input data with
      | .error e =>
        ([.readExcel input_file, .scenarioApplied sce], .error e)
      | .ok _ =>
        match env.create_model_dt data dt timesteps with
        | .error e =>
          ([.readExcel input_file, .scenarioApplied sce, .validated], .error e)
        | .ok prob =>
          let log_filename := result_dir ++ "/" ++ sce ++ ".log"
          let optim := SolverFactory "gurobi" "python"
          let optim := (setup_solver optim log_filename).1
          let status := env.solve optim prob
          ([.readExcel input_file, .scenarioApplied sce, .validated,
            .modelCreated,
            .solverCreated "gurobi" "python", .solverConfigured log_filename,
            .solved status,
            .reported (result_dir ++ "/" ++ sce ++ ".xlsx"),
            .plotted (result_dir ++ "/" ++ sce)],
           .ok (prob, status))

end Village

/-- The `for scenario in scenarios:` loop of the `__main__` blocks of
`runme_dummy.py`, `Kpori.py` and `runme_WT_EWF.py`, with Python exception
semantics: an exception raised inside one iteration propagates out of the
loop, so no later iteration runs.  Returns, per scenario that actually
executed, its name and trace, plus the final outcome of the loop. -/
def runBatch (env : Env) (input_file : String) (timesteps : List Nat)
    (scenarios : List Scenario) (result_dir : String)
    (pt : List Key) (pp : List (String × Nat × Nat)) (rt : List Key) :
    List (String × List Event) × Except PyError Unit :=
  match scenarios with
  | [] => ([], .ok ())
  | s :: rest =>
    let r := run_scenario env input_file timesteps s result_dir pt pp rt
    match r.2 with
    | .error e => ([(s.name, r.1)], .error e)
    | .ok _ =>
      let rs := runBatch env input_file timesteps rest result_dir pt pp rt
      ((s.name, r.1) :: rs.1, rs.2)

/-! ### Report/plot window selection -/

/-- The per-window outcome of the window selector: a rendered artifact over
a clamped timestep range, or a configuration error for that window alone. -/
inductive WindowOutcome where
  | artifact : String → Nat → Nat → WindowOutcome
  | rangeError : String → WindowOutcome
deriving DecidableEq, Repr

/-- Modelled from the spec: the per-window selection logic of the external
plot renderer (`urbs.result_figures` / `urbs.plot`), which belongs to this
repository's `urbs` package but is not under `src/`.  Per the spec, for
each named window the selector clamps the requested range to
`[offset, offset+length]`, rejects with a configuration error (for that
window only, without aborting the others) any window that does not
intersect the horizon, and hands the clamped range to the renderer. -/
def selectWindows (offset length : Nat) (periods : List (String × Nat × Nat)) :
    List WindowOutcome :=
  periods.map (fun w =>
    let lo := max w.2.1 offset
    let hi := min w.2.2 (offset + length)
    if lo ≤ hi then .artifact w.1 lo hi else .rangeError w.1)

/-! ### Concrete fixtures for evaluating the pipeline on small inputs -/

/-- A small two-relation dataset in the shape `urbs.read_excel` returns. -/
def D0 : Dataset :=
  [("storage", ⟨[(("Village", "Battery"), [("cap-up-c", Val.num 1)])]⟩),
   ("process", ⟨[(("Village", "Water Pump"), [("cap-up", Val.num 2)])]⟩)]

/-- Collaborator oracles for a run where every external step succeeds and
the solver reports an infeasible (non-optimal) status. -/
def envOk : Env where
  read_excel := fun _ => .ok D0
  validate_input := fun _ => .ok ()
  create_model := fun d ts => .ok ⟨d, ts, "t0"⟩
  create_model_dt := fun d _ ts => .ok ⟨d, ts, "t0"⟩
  solve := fun _ _ => .infeasible

/-- Same oracles, but structural validation raises a ValidationError. -/
def envValFail : Env :=
  { envOk with validate_input := fun _ => .error .validationError }

/-- A scenario whose transform raises. -/
def badSc : Scenario := ⟨"scenario_bad", fun _ => .error .scenarioError⟩

/-- An identity scenario transform, as `scenario_base` of `runme_dummy.py`. -/
def goodSc : Scenario := ⟨"scenario_base", fun d => .ok d⟩

/-- A dataset that has the "storage" and "process" relations but lacks every
(location, entity) key that `WTEWF.scenario_base` edits. -/
def Dmis : Dataset :=
  [("storage", ⟨[(("StRupertMayer", "Battery"), [("cap-up-c", Val.num 5)])]⟩),
   ("process", ⟨[(("StRupertMayer", "Photovoltaics"), [("cap-up", Val.num 3)])]⟩)]

/-- A dataset containing every key edited by any of the scenario transforms. -/
def Dall : Dataset :=
  [("storage",
    ⟨[(("StRupertMayer", "Biogas Storage"), [("cap-up-c", Val.num 7)]),
      (("StRupertMayer", "Biogas Equivalent Storage"), [("cap-up-c", Val.num 8)])]⟩),
   ("process",
    ⟨[(("StRupertMayer", "Biogas Generator"), [("cap-up", Val.num 1)]),
      (("StRupertMayer", "Biogas Digester"), [("cap-up", Val.num 2)]),
      (("Village", "WaterBuy to Domestic Water"), [("inv-cost", Val.num 3)])]⟩)]

/-! ### Helper lemmas about the embedded pandas/dict operations -/

theorem any_key_iff (df : DataFrame) (k : Key) :
    df.rows.any (fun r => r.1 = k) = true ↔ k ∈ df.keys := by
  simp [DataFrame.keys, List.any_eq_true, List.mem_map]

theorem locSet_keys_of_mem (df : DataFrame) (k : Key) (c : String) (v : Val)
    (h : k ∈ df.keys) : (df.locSet k c v).keys = df.keys := by
  rw [DataFrame.locSet, if_pos ((any_key_iff df k).2 h)]
  simp only [DataFrame.keys, List.map_map]
  apply List.map_congr_left
  intro r _
  by_cases hr : r.1 = k <;> simp [hr]

theorem locSet_mem_self (df : DataFrame) (k : Key) (c : String) (v : Val) :
    k ∈ (df.locSet k c v).keys := by
  by_cases h : df.rows.any (fun r => r.1 = k) = true
  · rw [locSet_keys_of_mem df k c v ((any_key_iff df k).1 h)]
    exact (any_key_iff df k).1 h
  · rw [DataFrame.locSet, if_neg h]
    simp [DataFrame.keys]

theorem locSet_mem_mono (df : DataFrame) (k k' : Key) (c : String) (v : Val)
    (h : k' ∈ df.keys) : k' ∈ (df.locSet k c v).keys := by
  by_cases hk : df.rows.any (fun r => r.1 = k) = true
  · rw [locSet_keys_of_mem df k c v ((any_key_iff df k).1 hk)]
    exact h
  · rw [DataFrame.locSet, if_neg hk]
    simp only [DataFrame.keys, List.map_append, List.mem_append]
    exact Or.inl h

theorem getRel_setRel_self (d : Dataset) (n : String) (df : DataFrame) :
    getRel (setRel d n df) n = .ok df := by
  induction d with
  | nil => simp [setRel, getRel]
  | cons p rest ih =>
    by_cases h : p.1 = n
    · simp [setRel, h, getRel]
    · simp [setRel, h, getRel, ih]

theorem getRel_setRel_ne (d : Dataset) (n m : String) (df : DataFrame)
    (h : n ≠ m) : getRel (setRel d n df) m = getRel d m := by
  induction d with
  | nil => simp [setRel, getRel, h]
  | cons p rest ih =>
    by_cases hp : p.1 = n
    · simp [setRel, hp, getRel, h, hp.symm ▸ h]
    · simp only [setRel, if_neg hp, getRel]
      by_cases hm : p.1 = m
      · simp [hm]
      · simp [hm, ih]

theorem keysOf_setRel (d : Dataset) (n : String) (df df₀ : DataFrame)
    (h : getRel d n = .ok df₀) (hk : df.keys = df₀.keys) :
    keysOf (setRel d n df) = keysOf d := by
  induction d with
  | nil => simp [getRel] at h
  | cons p rest ih =>
    by_cases hp : p.1 = n
    · rw [getRel, if_pos hp] at h
      obtain rfl : p.2 = df₀ := by injection h
      simp [setRel, hp, keysOf, hk]
    · rw [getRel, if_neg hp] at h
      have hrest := ih h
      simp only [keysOf] at hrest ⊢
      simp [setRel, hp, hrest]

/-! ### Claim theorems -/

/-- C9: for every Dataset `D`, the base scenario transform with no edits
(`scenario_base` of `runme_dummy.py`, whose body is a bare `return data`)
returns `D` unchanged: every relation, key and cell of the result is that
of the input, since the result is `D` itself. -/
theorem c9_base_scenario_identity (D : Dataset) :
    Dummy.scenario_base D = Except.ok D := rfl

/-- C6: for a solver object whose engine name is neither 'gurobi' nor
'glpk', `setup_solver` (identical in all four scripts) sets no option,
emits a non-fatal warning, and returns the solver object unchanged (it
never raises, being a total function); for engine 'gurobi' it sets the
option `logfile=<path>` and for 'glpk' the option `log=<path>`, each
redirecting the solver log to the given path. -/
theorem c6_setup_solver (optim : Optim) (lf : String) :
    (optim.name ≠ "gurobi" → optim.name ≠ "glpk" →
      (setup_solver optim lf).1 = optim ∧ (setup_solver optim lf).2 ≠ []) ∧
    (optim.name = "gurobi" →
      (setup_solver optim lf).1.options = optim.options ++ ["logfile=" ++ lf]) ∧
    (optim.name = "glpk" →
      (setup_solver optim lf).1.options = optim.options ++ ["log=" ++ lf]) := by
  refine ⟨?_, ?_, ?_⟩
  · intro h1 h2
    rw [setup_solver, if_neg h1, if_neg h2]
    exact ⟨rfl, by simp⟩
  · intro h
    rw [setup_solver, if_pos h]
    rfl
  · intro h
    have h1 : ¬optim.name = "gurobi" := by rw [h]; decide
    rw [setup_solver, if_neg h1, if_pos h]
    rfl

/-- C6 witness: evaluating `setup_solver` on a concrete unrecognized engine
('cplex') yields the unchanged solver object and a nonempty warning list. -/
theorem c6_setup_solver_witness :
    (setup_solver ⟨"cplex", "python", []⟩ "x.log").1 = ⟨"cplex", "python", []⟩ ∧
    (setup_solver ⟨"cplex", "python", []⟩ "x.log").2 ≠ [] :=
  (c6_setup_solver ⟨"cplex", "python", []⟩ "x.log").1 (by decide) (by decide)

/-- C7: `prepare_result_directory` (identical in all four scripts) returns
the path `result/<name>-<timestamp>` with the timestamp formatted at minute
resolution (`%Y%m%dT%H%M`); when that path already exists it performs no
creation (the filesystem state is returned unchanged); when absent it
creates the directory together with its missing parent `result`; and a
second call within the same minute (any seconds value) returns the same
path without further creation. -/
theorem c7_prepare_result_directory (fs : FS) (t : PyDateTime) (nm : String) :
    (prepare_result_directory fs t nm).2 =
        "result/" ++ nm ++ "-" ++ strftime_YmdTHM t ∧
    (("result/" ++ nm ++ "-" ++ strftime_YmdTHM t) ∈ fs.dirs →
      (prepare_result_directory fs t nm).1 = fs) ∧
    (("result/" ++ nm ++ "-" ++ strftime_YmdTHM t) ∉ fs.dirs →
      ("result/" ++ nm ++ "-" ++ strftime_YmdTHM t) ∈
          (prepare_result_directory fs t nm).1.dirs ∧
      "result" ∈ (prepare_result_directory fs t nm).1.dirs) ∧
    (∀ t' : PyDateTime, t'.year = t.year → t'.month = t.month →
      t'.day = t.day → t'.hour = t.hour → t'.minute = t.minute →
      prepare_result_directory (prepare_result_directory fs t nm).1 t' nm =
        ((prepare_result_directory fs t nm).1,
         (prepare_result_directory fs t nm).2)) := by
  refine ⟨?_, ?_, ?_, ?_⟩
  · by_cases h : ("result/" ++ nm ++ "-" ++ strftime_YmdTHM t) ∈ fs.dirs <;>
      simp [prepare_result_directory, h]
  · intro h
    simp [prepare_result_directory, h]
  · intro h
    simp [prepare_result_directory, h, List.mem_insert_iff]
  · intro t' h1 h2 h3 h4 h5
    have hst : strftime_YmdTHM t' = strftime_YmdTHM t := by
      unfold strftime_YmdTHM
      rw [h1, h2, h3, h4, h5]
    by_cases h : ("result/" ++ nm ++ "-" ++ strftime_YmdTHM t) ∈ fs.dirs <;>
      simp [prepare_result_directory, h, hst]

/-- C7 witness: on an empty filesystem, a concrete call yields the expected
timestamped path, its creation, and a second call 45 seconds later (same
minute) returns the same path with no further filesystem change. -/
theorem c7_prepare_result_directory_witness :
    (prepare_result_directory ⟨[]⟩ ⟨2026, 10, 12, 9, 30, 0⟩ "Village").2 =
        "result/" ++ "Village" ++ "-" ++ strftime_YmdTHM ⟨2026, 10, 12, 9, 30, 0⟩ ∧
    (("result/" ++ "Village" ++ "-" ++ strftime_YmdTHM ⟨2026, 10, 12, 9, 30, 0⟩) ∈
        (prepare_result_directory ⟨[]⟩ ⟨2026, 10, 12, 9, 30, 0⟩ "Village").1.dirs ∧
      "result" ∈ (prepare_result_directory ⟨[]⟩ ⟨2026, 10, 12, 9, 30, 0⟩ "Village").1.dirs) ∧
    prepare_result_directory
        (prepare_result_directory ⟨[]⟩ ⟨2026, 10, 12, 9, 30, 0⟩ "Village").1
        ⟨2026, 10, 12, 9, 30, 45⟩ "Village" =
      ((prepare_result_directory ⟨[]⟩ ⟨2026, 10, 12, 9, 30, 0⟩ "Village").1,
       (prepare_result_directory ⟨[]⟩ ⟨2026, 10, 12, 9, 30, 0⟩ "Village").2) :=
  ⟨(c7_prepare_result_directory ⟨[]⟩ ⟨2026, 10, 12, 9, 30, 0⟩ "Village").1,
   (c7_prepare_result_directory ⟨[]⟩ ⟨2026, 10, 12, 9, 30, 0⟩ "Village").2.2.1
     (by simp),
   (c7_prepare_result_directory ⟨[]⟩ ⟨2026, 10, 12, 9, 30, 0⟩ "Village").2.2.2
     ⟨2026, 10, 12, 9, 30, 45⟩ rfl rfl rfl rfl rfl⟩

/-- C5: for every named window in the period map, the window selector hands
the renderer the requested range clamped to the horizon
`[offset, offset+length]`; a window that does not intersect the horizon
yields a range error for that window only, while every window (in
particular every other one) still yields exactly one outcome — the outcome
list has one entry per requested window. -/
theorem c5_plot_window_clamping (offset length : Nat)
    (ps : List (String × Nat × Nat)) :
    (selectWindows offset length ps).length = ps.length ∧
    (∀ n lo hi, (n, lo, hi) ∈ ps →
      (max lo offset ≤ min hi (offset + length) →
        WindowOutcome.artifact n (max lo offset) (min hi (offset + length)) ∈
          selectWindows offset length ps) ∧
      (¬ max lo offset ≤ min hi (offset + length) →
        WindowOutcome.rangeError n ∈ selectWindows offset length ps)) := by
  constructor
  · simp [selectWindows]
  · intro n lo hi hmem
    constructor
    · intro hle
      rw [selectWindows, List.mem_map]
      exact ⟨(n, lo, hi), hmem, by simp [hle]⟩
    · intro hgt
      rw [selectWindows, List.mem_map]
      exact ⟨(n, lo, hi), hmem, by simp [hgt]⟩

/-- C5 witness: over the horizon `[0, 100]`, a window `[1, 168]` is clamped
to `[1, 100]` and produces its artifact, the disjoint window `[500, 600]`
is rejected for itself alone, and both windows receive an outcome. -/
theorem c5_plot_window_clamping_witness :
    (selectWindows 0 100 [("one_week", 1, 168), ("faraway", 500, 600)]).length = 2 ∧
    WindowOutcome.artifact "one_week" (max 1 0) (min 168 (0 + 100)) ∈
      selectWindows 0 100 [("one_week", 1, 168), ("faraway", 500, 600)] ∧
    WindowOutcome.rangeError "faraway" ∈
      selectWindows 0 100 [("one_week", 1, 168), ("faraway", 500, 600)] :=
  ⟨(c5_plot_window_clamping 0 100 [("one_week", 1, 168), ("faraway", 500, 600)]).1.trans rfl,
   ((c5_plot_window_clamping 0 100 [("one_week", 1, 168), ("faraway", 500, 600)]).2
     "one_week" 1 168 (by decide)).1 (by decide),
   ((c5_plot_window_clamping 0 100 [("one_week", 1, 168), ("faraway", 500, 600)]).2
     "faraway" 500 600 (by decide)).2 (by decide)⟩

/-- C8: when the solver invocation returns (with any status, in particular a
non-optimal one), `run_scenario` does not treat this as a crash: the status
is recorded in the returned result and the report and plot steps still
execute for that scenario.  The status never branches the control flow —
the code binds `result = optim.solve(...)` and proceeds unconditionally. -/
theorem c8_nonoptimal_not_a_crash (env : Env) (f : String) (ts : List Nat)
    (sc : Scenario) (rd : String) (pt : List Key)
    (pp : List (String × Nat × Nat)) (rt : List Key)
    (d d' : Dataset) (m : Model) (s : SolveStatus)
    (h1 : env.read_excel f = .ok d) (h2 : sc.fn d = .ok d')
    (h3 : env.create_model d' ts = .ok m)
    (h4 : env.solve (setup_solver (SolverFactory "gurobi" "python")
            (rd ++ "/" ++ sc.name ++ ".log")).1 m = s)
    (h5 : s ≠ SolveStatus.optimal) :
    (run_scenario env f ts sc rd pt pp rt).2 = .ok (m, s) ∧
    Event.solved s ∈ (run_scenario env f ts sc rd pt pp rt).1 ∧
    Event.reported (rd ++ "/" ++ sc.name ++ ".xlsx") ∈
      (run_scenario env f ts sc rd pt pp rt).1 ∧
    Event.plotted (rd ++ "/" ++ sc.name) ∈
      (run_scenario env f ts sc rd pt pp rt).1 := by
  subst h4
  simp only [run_scenario, h1, h2, h3]
  simp

/-- C8 witness: with concrete oracles whose solver reports infeasible, the
run still records the status and reaches the report and plot steps. -/
theorem c8_nonoptimal_not_a_crash_witness :
    (run_scenario envOk "in" [0, 1] goodSc "rd" [] [] []).2 =
        .ok (⟨D0, [0, 1], "t0"⟩, SolveStatus.infeasible) ∧
    Event.solved SolveStatus.infeasible ∈
      (run_scenario envOk "in" [0, 1] goodSc "rd" [] [] []).1 ∧
    Event.reported ("rd" ++ "/" ++ goodSc.name ++ ".xlsx") ∈
      (run_scenario envOk "in" [0, 1] goodSc "rd" [] [] []).1 ∧
    Event.plotted ("rd" ++ "/" ++ goodSc.name) ∈
      (run_scenario envOk "in" [0, 1] goodSc "rd" [] [] []).1 :=
  c8_nonoptimal_not_a_crash envOk "in" [0, 1] goodSc "rd" [] [] []
    D0 D0 ⟨D0, [0, 1], "t0"⟩ SolveStatus.infeasible rfl rfl rfl rfl (by decide)

/-- C10: in each of the four scripts, `run_scenario` constructs its solver
with the hard-coded engine name 'gurobi' and python solver_io: every solver
construction observable in a run's trace uses exactly these constants, for
all values of every parameter of `run_scenario` (so no parameter selects a
different engine).  The common variant embeds `runme_dummy.py`, `Kpori.py`
and `runme_WT_EWF.py`; `Village.run_scenario` embeds `Village.py`. -/
theorem c10_engine_hardcoded (env : Env) (f : String) (ts : List Nat)
    (sc : Scenario) (rd : String) (dt : Nat) (pt : List Key)
    (pp : List (String × Nat × Nat)) (rt : List Key) (e io : String) :
    (Event.solverCreated e io ∈ (run_scenario env f ts sc rd pt pp rt).1 →
      e = "gurobi" ∧ io = "python") ∧
    (Event.solverCreated e io ∈
        (Village.run_scenario env f ts sc rd dt pt pp rt).1 →
      e = "gurobi" ∧ io = "python") := by
  constructor
  · intro hmem
    rcases h1 : env.read_excel f with e1 | d1
    · simp [run_scenario, h1] at hmem
    simp only [run_scenario, h1] at hmem
    rcases h2 : sc.fn d1 with e2 | d2
    · simp [h2] at hmem
    simp only [h2] at hmem
    rcases h3 : env.create_model d2 ts with e3 | m
    · simp [h3] at hmem
    simp only [h3] at hmem
    simp at hmem
    exact hmem
  · intro hmem
    rcases h1 : env.read_excel f with e1 | d1
    · simp [Village.run_scenario, h1] at hmem
    simp only [Village.run_scenario, h1] at hmem
    rcases h2 : sc.fn d1 with e2 | d2
    · simp [h2] at hmem
    simp only [h2] at hmem
    rcases h3 : env.validate_input d2 with e3 | u
    · simp [h3] at hmem
    simp only [h3] at hmem
    rcases h4 : env.create_model_dt d2 dt ts with e4 | m
    · simp [h4] at hmem
    simp only [h4] at hmem
    simp at hmem
    exact hmem

/-- C10 witness: a concrete run whose trace does contain a solver-creation
event; the theorem applied there yields the hard-coded constants. -/
theorem c10_engine_hardcoded_witness :
    "gurobi" = "gurobi" ∧ "python" = "python" :=
  (c10_engine_hardcoded envOk "in" [0, 1] goodSc "rd" 1 [] [] []
    "gurobi" "python").1 (by decide)

/-- C4: for every valid dataset `D` — one whose "storage" and "process"
relations exist and already contain every (location, entity) key the
transforms edit — each scenario transform defined in the source returns a
dataset with the same relations and, relation by relation, the same key
list as `D`: no key is inserted or deleted. -/
theorem c4_shape_preservation (D : Dataset) (sto pro : DataFrame)
    (hs : getRel D "storage" = .ok sto) (hp : getRel D "process" = .ok pro)
    (hk1 : ("StRupertMayer", "Biogas Storage") ∈ sto.keys)
    (hk2 : ("StRupertMayer", "Biogas Equivalent Storage") ∈ sto.keys)
    (hk3 : ("StRupertMayer", "Biogas Generator") ∈ pro.keys)
    (hk4 : ("StRupertMayer", "Biogas Digester") ∈ pro.keys)
    (hk5 : ("Village", "WaterBuy to Domestic Water") ∈ pro.keys) :
    Dummy.scenario_base D = .ok D ∧
    Village.scenario_base D = .ok D ∧
    (∃ D', Kpori.scenario_base D = .ok D' ∧ keysOf D' = keysOf D) ∧
    (∃ D', WTEWF.scenario_base D = .ok D' ∧ keysOf D' = keysOf D) := by
  refine ⟨rfl, ?_, ?_, ?_⟩
  · rw [Village.scenario_base, hs, hp]
  · rw [Kpori.scenario_base, hs, hp]
    refine ⟨_, rfl, ?_⟩
    exact keysOf_setRel D "process" _ pro hp
      (locSet_keys_of_mem pro _ "inv-cost" (Val.num 0) hk5)
  · have hsk1 : (sto.locSet ("StRupertMayer", "Biogas Storage") "cap-up-c"
        (Val.num 0)).keys = sto.keys :=
      locSet_keys_of_mem sto _ _ _ hk1
    have hsk2 : ((sto.locSet ("StRupertMayer", "Biogas Storage") "cap-up-c"
        (Val.num 0)).locSet ("StRupertMayer", "Biogas Equivalent Storage")
        "cap-up-c" (Val.num 0)).keys = sto.keys := by
      rw [locSet_keys_of_mem _ _ _ _ (hsk1 ▸ hk2), hsk1]
    have hget : getRel (setRel D "storage"
        ((sto.locSet ("StRupertMayer", "Biogas Storage") "cap-up-c"
          (Val.num 0)).locSet ("StRupertMayer", "Biogas Equivalent Storage")
          "cap-up-c" (Val.num 0))) "process" = .ok pro := by
      rw [getRel_setRel_ne _ _ _ _ (by decide), hp]
    simp only [WTEWF.scenario_base, hs, hget]
    refine ⟨_, rfl, ?_⟩
    have hpk : ((pro.locSet ("StRupertMayer", "Biogas Generator") "cap-up"
        (Val.num 0)).locSet ("StRupertMayer", "Biogas Digester") "cap-up"
        (Val.num 0)).keys = pro.keys := by
      rw [locSet_keys_of_mem _ _ _ _
        ((locSet_keys_of_mem pro _ "cap-up" (Val.num 0) hk3) ▸ hk4),
        locSet_keys_of_mem pro _ "cap-up" (Val.num 0) hk3]
    rw [keysOf_setRel _ "process" _ pro hget hpk,
      keysOf_setRel D "storage" _ sto hs hsk2]

/-- C4 witness: a concrete dataset holding every edited key; all four
transforms preserve the relation names and per-relation key lists. -/
theorem c4_shape_preservation_witness :
    Dummy.scenario_base Dall = .ok Dall ∧
    Village.scenario_base Dall = .ok Dall ∧
    (∃ D', Kpori.scenario_base Dall = .ok D' ∧ keysOf D' = keysOf Dall) ∧
    (∃ D', WTEWF.scenario_base Dall = .ok D' ∧ keysOf D' = keysOf Dall) :=
  c4_shape_preservation Dall
    ⟨[(("StRupertMayer", "Biogas Storage"), [("cap-up-c", Val.num 7)]),
      (("StRupertMayer", "Biogas Equivalent Storage"), [("cap-up-c", Val.num 8)])]⟩
    ⟨[(("StRupertMayer", "Biogas Generator"), [("cap-up", Val.num 1)]),
      (("StRupertMayer", "Biogas Digester"), [("cap-up", Val.num 2)]),
      (("Village", "WaterBuy to Domestic Water"), [("inv-cost", Val.num 3)])]⟩
    rfl rfl (by decide) (by decide) (by decide) (by decide) (by decide)

/-- C1 counterexample: a two-scenario batch whose first scenario raises.
The `for scenario in scenarios:` loop has no error isolation, so the
exception propagates: only the first scenario executes, and no outcome of
any kind exists for the second — refuting the claim that a failure does
not abort subsequent scenarios. -/
theorem c1_batch_counterexample :
    (runBatch envOk "in" [0, 1] [badSc, goodSc] "rd" [] [] []).1.map Prod.fst
        = ["scenario_bad"] ∧
    "scenario_base" ∉
      (runBatch envOk "in" [0, 1] [badSc, goodSc] "rd" [] [] []).1.map Prod.fst ∧
    (runBatch envOk "in" [0, 1] [badSc, goodSc] "rd" [] [] []).2 =
        .error .scenarioError :=
  ⟨rfl, by decide, rfl⟩

/-- C1 amended: in a multi-scenario batch, a raised error in one scenario's
run aborts the batch: the exception propagates out of the loop, no
subsequent scenario's pipeline executes, and an outcome exists only for the
scenarios up to and including the failing one. -/
theorem c1_failure_aborts_batch (env : Env) (f : String) (ts : List Nat)
    (s : Scenario) (rest : List Scenario) (rd : String) (pt : List Key)
    (pp : List (String × Nat × Nat)) (rt : List Key) (e : PyError)
    (h : (run_scenario env f ts s rd pt pp rt).2 = .error e) :
    runBatch env f ts (s :: rest) rd pt pp rt =
      ([(s.name, (run_scenario env f ts s rd pt pp rt).1)], .error e) := by
  simp only [runBatch, h]

/-- C1 amended witness: the failing two-scenario batch evaluates to exactly
the failing scenario's outcome and the propagated error. -/
theorem c1_failure_aborts_batch_witness :
    runBatch envOk "in" [0, 1] (badSc :: [goodSc]) "rd" [] [] [] =
      ([(badSc.name, (run_scenario envOk "in" [0, 1] badSc "rd" [] [] []).1)],
       .error .scenarioError) :=
  c1_failure_aborts_batch envOk "in" [0, 1] badSc [goodSc] "rd" [] [] []
    PyError.scenarioError rfl

/-- C2 counterexample: a run of the `run_scenario` pipeline shared by
`runme_dummy.py`, `Kpori.py` and `runme_WT_EWF.py` builds the model while
no validation step ever executes — those scripts contain no call to
`urbs.validate_input`, refuting the claim that every run validates before
model construction. -/
theorem c2_validation_counterexample :
    Event.modelCreated ∈
      (run_scenario envOk "in" [0, 1] goodSc "rd" [] [] []).1 ∧
    Event.validated ∉
      (run_scenario envOk "in" [0, 1] goodSc "rd" [] [] []).1 := by
  decide

/-- C2 amended: in `Village.py`'s `run_scenario` (the only script that
calls `urbs.validate_input`), validation executes after the scenario
transform and before model construction — whenever a model is built,
a successful validation strictly precedes it in the trace and follows the
transform — and a validation failure aborts that scenario's remaining
steps: the error propagates and neither model construction nor reporting
nor plotting occurs.  The `run_scenario` of the other three scripts
performs no validation at all. -/
theorem c2_village_validates (env : Env) (f : String) (ts : List Nat)
    (sc : Scenario) (rd : String) (dt : Nat) (pt : List Key)
    (pp : List (String × Nat × Nat)) (rt : List Key) :
    (Event.modelCreated ∈ (Village.run_scenario env f ts sc rd dt pt pp rt).1 →
      ∃ l₁ l₂, (Village.run_scenario env f ts sc rd dt pt pp rt).1 =
          l₁ ++ Event.validated :: l₂ ∧
        Event.scenarioApplied sc.name ∈ l₁ ∧ Event.modelCreated ∈ l₂) ∧
    (∀ d d' e, env.read_excel f = .ok d → sc.fn d = .ok d' →
      env.validate_input d' = .error e →
      (Village.run_scenario env f ts sc rd dt pt pp rt).2 = .error e ∧
      Event.modelCreated ∉ (Village.run_scenario env f ts sc rd dt pt pp rt).1 ∧
      (∀ p, Event.reported p ∉ (Village.run_scenario env f ts sc rd dt pt pp rt).1) ∧
      (∀ p, Event.plotted p ∉ (Village.run_scenario env f ts sc rd dt pt pp rt).1)) := by
  constructor
  · intro hmem
    rcases h1 : env.read_excel f with e1 | d1
    · simp [Village.run_scenario, h1] at hmem
    simp only [Village.run_scenario, h1] at hmem ⊢
    rcases h2 : sc.fn d1 with e2 | d2
    · simp [h2] at hmem
    simp only [h2] at hmem ⊢
    rcases h3 : env.validate_input d2 with e3 | u
    · simp [h3] at hmem
    simp only [h3] at hmem ⊢
    rcases h4 : env.create_model_dt d2 dt ts with e4 | m
    · simp [h4] at hmem
    simp only [h4] at hmem ⊢
    exact ⟨[Event.readExcel f, Event.scenarioApplied sc.name], _, rfl,
      by simp, by simp⟩
  · intro d d' e h1 h2 h3
    simp [Village.run_scenario, h1, h2, h3]

/-- C2 amended witness: with oracles whose validation raises, the Village
pipeline stops before model construction; with succeeding oracles, the
trace interleaves validation strictly between transform and build. -/
theorem c2_village_validates_witness :
    ((Village.run_scenario envValFail "in" [0, 1] goodSc "rd" 1 [] [] []).2 =
        .error .validationError ∧
      Event.modelCreated ∉
        (Village.run_scenario envValFail "in" [0, 1] goodSc "rd" 1 [] [] []).1) ∧
    (∃ l₁ l₂, (Village.run_scenario envOk "in" [0, 1] goodSc "rd" 1 [] [] []).1 =
        l₁ ++ Event.validated :: l₂ ∧
      Event.scenarioApplied goodSc.name ∈ l₁ ∧ Event.modelCreated ∈ l₂) :=
  ⟨(fun h => ⟨h.1, h.2.1⟩)
    ((c2_village_validates envValFail "in" [0, 1] goodSc "rd" 1 [] [] []).2
      D0 D0 PyError.validationError rfl rfl rfl),
   (c2_village_validates envOk "in" [0, 1] goodSc "rd" 1 [] [] []).1
    (by decide)⟩

/-- C3 counterexample: `scenario_base` of `runme_WT_EWF.py` applied to a
dataset whose "storage" and "process" relations lack every edited key does
NOT raise: per the pandas `.loc` setting-with-enlargement semantics, each
assignment silently appends a new row holding only the assigned cell, so
the transform returns successfully with four inserted keys. -/
theorem c3_absent_key_counterexample :
    WTEWF.scenario_base Dmis = Except.ok
      [("storage",
        ⟨[(("StRupertMayer", "Battery"), [("cap-up-c", Val.num 5)]),
          (("StRupertMayer", "Biogas Storage"), [("cap-up-c", Val.num 0)]),
          (("StRupertMayer", "Biogas Equivalent Storage"), [("cap-up-c", Val.num 0)])]⟩),
       ("process",
        ⟨[(("StRupertMayer", "Photovoltaics"), [("cap-up", Val.num 3)]),
          (("StRupertMayer", "Biogas Generator"), [("cap-up", Val.num 0)]),
          (("StRupertMayer", "Biogas Digester"), [("cap-up", Val.num 0)])]⟩)] ∧
    ("StRupertMayer", "Biogas Storage") ∉
      (DataFrame.keys ⟨[(("StRupertMayer", "Battery"), [("cap-up-c", Val.num 5)])]⟩) :=
  ⟨rfl, by decide⟩

/-- C3 amended: a scenario transform that assigns to a (location, entity)
key absent from the relation being edited does not fail: the `.loc`
assignment silently inserts a new row (holding the assigned cell, other
columns left unset), and the transform returns successfully with the
referenced key now present in the relation. -/
theorem c3_absent_key_inserted (D : Dataset) (sto pro : DataFrame)
    (hs : getRel D "storage" = .ok sto) (hp : getRel D "process" = .ok pro)
    (habsent : ("StRupertMayer", "Biogas Storage") ∉ sto.keys) :
    ∃ D' sto', WTEWF.scenario_base D = .ok D' ∧
      getRel D' "storage" = .ok sto' ∧
      ("StRupertMayer", "Biogas Storage") ∈ sto'.keys := by
  have hget : getRel (setRel D "storage"
      ((sto.locSet ("StRupertMayer", "Biogas Storage") "cap-up-c"
        (Val.num 0)).locSet ("StRupertMayer", "Biogas Equivalent Storage")
        "cap-up-c" (Val.num 0))) "process" = .ok pro := by
    rw [getRel_setRel_ne _ _ _ _ (by decide), hp]
  simp only [WTEWF.scenario_base, hs, hget]
  refine ⟨_,
    (sto.locSet ("StRupertMayer", "Biogas Storage") "cap-up-c"
      (Val.num 0)).locSet ("StRupertMayer", "Biogas Equivalent Storage")
      "cap-up-c" (Val.num 0),
    rfl, ?_, ?_⟩
  · rw [getRel_setRel_ne _ _ _ _ (by decide)]
    exact getRel_setRel_self D "storage" _
  · exact locSet_mem_mono _ _ _ _ _
      (locSet_mem_self sto _ "cap-up-c" (Val.num 0))

/-- C3 amended witness: on the concrete dataset missing the edited keys,
the transform succeeds and the "storage" relation afterwards contains the
previously absent key. -/
theorem c3_absent_key_inserted_witness :
    ∃ D' sto', WTEWF.scenario_base Dmis = .ok D' ∧
      getRel D' "storage" = .ok sto' ∧
      ("StRupertMayer", "Biogas Storage") ∈ sto'.keys :=
  c3_absent_key_inserted Dmis
    ⟨[(("StRupertMayer", "Battery"), [("cap-up-c", Val.num 5)])]⟩
    ⟨[(("StRupertMayer", "Photovoltaics"), [("cap-up", Val.num 3)])]⟩
    rfl rfl (by decide)

end Urbs
